import Mathlib

/-!
# Hardware abstraction layer simulation (`src/HAL.cpp`)

A shallow embedding of the HAL demonstration program.

* `std::string` is `String`; comparison with a literal (`type == "Motor"`) is
  equality of the whole character sequence.
* Standard output is a `String` holding every character written so far; each
  function that writes takes the output written so far and returns the new one.
* The device and mode classes have no data members, so an object is its dynamic
  type: `Device` and `ControlMode` are enumerations and virtual dispatch is a
  `match` on the constructor.
* A thrown exception is an `Except.error`; the only exception the program
  throws is `std::invalid_argument`.
-/

namespace HAL

/-! ## Logger -/

/-- The line terminator written by `std::endl`. -/
def endl : String := "\n"

/-- `Logger::log` (HAL.cpp:16-18):
`std::cout << "[INFO] " << msg << std::endl;`, three writes at the end of the
output `out` written so far. The logger is a stateless singleton, so the only
state involved is the output itself. -/
def Logger.log (out : String) (msg : String) : String :=
  out ++ "[INFO] " ++ msg ++ endl

/-! ## Devices -/

/-- The concrete classes deriving from `IHardwareDevice` (HAL.cpp:34-71).
None of them has a data member. -/
inductive Device where
  | Motor
  | LED
  | RFModule
  deriving DecidableEq

/-- The overrides of `powerOn` (HAL.cpp:36-38, 49-51, 62-64). -/
def Device.powerOn (d : Device) (out : String) : String :=
  match d with
  | .Motor => Logger.log out "Powering on Motor..."
  | .LED => Logger.log out "Powering on LED..."
  | .RFModule => Logger.log out "Powering on RFModule..."

/-- The overrides of `powerOff` (HAL.cpp:39-41, 52-54, 65-67). -/
def Device.powerOff (d : Device) (out : String) : String :=
  match d with
  | .Motor => Logger.log out "Powering off Motor..."
  | .LED => Logger.log out "Powering off LED..."
  | .RFModule => Logger.log out "Powering off RFModule..."

/-- The overrides of `status` (HAL.cpp:42-44, 55-57, 68-70); they write
nothing. -/
def Device.status (d : Device) : String :=
  match d with
  | .Motor => "Motor operational."
  | .LED => "LED active."
  | .RFModule => "RFModule transmitting."

/-- The identifier of the C++ class of a device (HAL.cpp:34, 47, 60). -/
def Device.className (d : Device) : String :=
  match d with
  | .Motor => "Motor"
  | .LED => "LED"
  | .RFModule => "RFModule"

/-! ## Exceptions -/

/-- The exceptions thrown in the program: `std::invalid_argument`, built from
the `std::string` given to its constructor (HAL.cpp:80). -/
inductive StdException where
  | invalid_argument (what_arg : String)
  deriving DecidableEq

/-- The NUL character, which ends a C string. -/
def NUL : Char := Char.ofNat 0

/-- `std::string::c_str()` read back as a C string: the characters before the
first NUL. -/
def c_str (s : String) : String :=
  ⟨s.data.takeWhile (fun c => c != NUL)⟩

/-- `std::exception::what()`: it returns a `const char*`, so what a caller
reads from it is the constructor argument up to its first NUL character. -/
def StdException.what (e : StdException) : String :=
  match e with
  | .invalid_argument what_arg => c_str what_arg

/-! ## Factory -/

/-- `DeviceFactory::createDevice` (HAL.cpp:76-81). -/
def DeviceFactory.createDevice (type : String) : Except StdException Device :=
  if type = "Motor" then .ok Device.Motor
  else if type = "LED" then .ok Device.LED
  else if type = "RFModule" then .ok Device.RFModule
  else .error (.invalid_argument ("Unknown device type: " ++ type))

/-! ## Control modes -/

/-- The concrete classes deriving from `IControlMode` (HAL.cpp:92-108). -/
inductive ControlMode where
  | SafeMode
  | PerformanceMode
  deriving DecidableEq

/-- The overrides of `applyMode` (HAL.cpp:94-97, 103-106). -/
def ControlMode.applyMode (m : ControlMode) (device : Device) (out : String) : String :=
  match m with
  | .SafeMode =>
    let out := Logger.log out "Applying Safe mode..."
    device.powerOn out
  | .PerformanceMode =>
    let out := Logger.log out "Applying Performance mode..."
    device.powerOn out

/-- The overrides of `name` (HAL.cpp:98, 107). -/
def ControlMode.name (m : ControlMode) : String :=
  match m with
  | .SafeMode => "Safe"
  | .PerformanceMode => "Performance"

/-! ## Main simulation -/

/-- The `try` block of `main` (HAL.cpp:112-122) with the literal given to
`createDevice` as the parameter `type`. The result pairs the outcome of the
block with the output written up to the point where it was left. -/
def tryBlock (type : String) (out : String) : Except StdException Unit × String :=
  match DeviceFactory.createDevice type with
  | .error e => (.error e, out)
  | .ok device =>
    let out := Logger.log out "Created RFModule"
    let mode := ControlMode.SafeMode
    let out := Logger.log out ("Control mode: " ++ mode.name)
    let out := mode.applyMode device out
    let out := Logger.log out device.status
    (.ok (), out)

/-- The body of `main` (HAL.cpp:111-126) with the device type as a parameter:
the `try` block, then the handler `catch (const std::exception& e)`, which
logs `std::string("Error: ") + e.what()`. Control then reaches the end of
`main`, which is a return of 0. The result is the final output and the exit
status. -/
def run (type : String) (out : String) : String × Int :=
  match tryBlock type out with
  | (.ok (), out) => (out, 0)
  | (.error e, out) => (Logger.log out ("Error: " ++ e.what), 0)

/-- The program `main` (HAL.cpp:111-126), started on empty output. -/
def main : String × Int :=
  run "RFModule" ""

/-! ## Vocabulary for statements about the output text -/

/-- The number of line terminators in a text. -/
def terminators (s : String) : Nat :=
  s.data.count '\n'

/-- The lines of a character sequence: each line terminator ends a line, and
characters after the last terminator form a final, unterminated line. -/
def splitLines : List Char → List (List Char)
  | [] => []
  | c :: cs =>
    if c = '\n' then [] :: splitLines cs
    else
      match splitLines cs with
      | [] => [[c]]
      | l :: ls => (c :: l) :: ls

/-- The lines of a text, without their terminators. -/
def lines (s : String) : List String :=
  (splitLines s.data).map String.mk

/-! ## Clients making sequences of calls -/

/-- A call made on a device through the interface `IHardwareDevice`
(HAL.cpp:25-31). -/
inductive DeviceCall where
  | powerOn
  | powerOff
  | status
  deriving DecidableEq

/-- One call on a device, made with `out` already written: the string returned
(`none` for the `void` methods) and the output after the call. -/
def Device.call (d : Device) (c : DeviceCall) (out : String) : Option String × String :=
  match c with
  | .powerOn => (none, d.powerOn out)
  | .powerOff => (none, d.powerOff out)
  | .status => (some d.status, out)

/-- A sequence of calls on one device, in order: the values returned, one per
call, and the output after the last call. -/
def Device.callAll (d : Device) : List DeviceCall → String → List (Option String) × String
  | [], out => ([], out)
  | c :: cs, out =>
    let r := d.call c out
    let rs := d.callAll cs r.2
    (r.1 :: rs.1, rs.2)

/-- A call made on a control mode through the interface `IControlMode`
(HAL.cpp:85-90). -/
inductive ModeCall where
  | applyMode (device : Device)
  | name
  deriving DecidableEq

/-- One call on a control mode, made with `out` already written: the string
returned (`none` for `applyMode`) and the output after the call. -/
def ControlMode.call (m : ControlMode) (c : ModeCall) (out : String) : Option String × String :=
  match c with
  | .applyMode device => (none, m.applyMode device out)
  | .name => (some m.name, out)

/-- A sequence of calls on one control mode, in order: the values returned,
one per call, and the output after the last call. -/
def ControlMode.callAll (m : ControlMode) : List ModeCall → String → List (Option String) × String
  | [], out => ([], out)
  | c :: cs, out =>
    let r := m.call c out
    let rs := m.callAll cs r.2
    (r.1 :: rs.1, rs.2)

/-- One call of the factory, made with `out` already written: the outcome of
`createDevice` and the output after the call. The function body
(HAL.cpp:77-80) contains no write. -/
def DeviceFactory.call (type : String) (out : String) : Except StdException Device × String :=
  (DeviceFactory.createDevice type, out)

/-- The text written between two states of the output: what `after` holds
beyond the length of `before`. -/
def appended (before after : String) : String :=
  ⟨after.data.drop before.length⟩

/-! ## Theorems -/

theorem createDevice_of_not_mem (type : String) (h : type ∉ ["Motor", "LED", "RFModule"]) :
    DeviceFactory.createDevice type
      = .error (.invalid_argument ("Unknown device type: " ++ type)) := by
  simp only [List.mem_cons, List.mem_singleton, List.not_mem_nil, or_false, not_or] at h
  obtain ⟨h1, h2, h3⟩ := h
  simp [DeviceFactory.createDevice, h1, h2, h3]

/-- C1: `createDevice` fails exactly on the names other than "Motor", "LED" and
"RFModule": on every other string it throws `invalid_argument` with message
"Unknown device type: " followed by the name and returns no device, and on each
of the three names it returns a device. -/
theorem C1_createDevice_fails_exactly_on_unrecognised (type : String) :
    (type ∉ ["Motor", "LED", "RFModule"] →
        DeviceFactory.createDevice type
          = .error (.invalid_argument ("Unknown device type: " ++ type))
        ∧ ∀ d, DeviceFactory.createDevice type ≠ .ok d)
    ∧ (type ∈ ["Motor", "LED", "RFModule"] →
        (∃ d, DeviceFactory.createDevice type = .ok d)
        ∧ ∀ e, DeviceFactory.createDevice type ≠ .error e) := by
  constructor
  · intro h
    rw [createDevice_of_not_mem type h]
    exact ⟨rfl, fun d hd => by cases hd⟩
  · intro h
    simp only [List.mem_cons, List.mem_singleton, List.not_mem_nil, or_false] at h
    rcases h with h | h | h <;> subst h
    · exact ⟨⟨Device.Motor, rfl⟩, fun e he => by cases he⟩
    · exact ⟨⟨Device.LED, rfl⟩, fun e he => by cases he⟩
    · exact ⟨⟨Device.RFModule, rfl⟩, fun e he => by cases he⟩

/-- C1 at the empty string, a lowercase variant and a name with trailing
whitespace: each is rejected with the documented message. -/
theorem C1_createDevice_fails_exactly_on_unrecognised_witness :
    (DeviceFactory.createDevice ""
        = .error (.invalid_argument ("Unknown device type: " ++ ""))
      ∧ ∀ d, DeviceFactory.createDevice "" ≠ .ok d)
    ∧ (DeviceFactory.createDevice "motor"
        = .error (.invalid_argument ("Unknown device type: " ++ "motor"))
      ∧ ∀ d, DeviceFactory.createDevice "motor" ≠ .ok d)
    ∧ (DeviceFactory.createDevice "Motor "
        = .error (.invalid_argument ("Unknown device type: " ++ "Motor "))
      ∧ ∀ d, DeviceFactory.createDevice "Motor " ≠ .ok d)
    ∧ ((∃ d, DeviceFactory.createDevice "LED" = .ok d)
      ∧ ∀ e, DeviceFactory.createDevice "LED" ≠ .error e) :=
  ⟨(C1_createDevice_fails_exactly_on_unrecognised "").1 (by decide),
   (C1_createDevice_fails_exactly_on_unrecognised "motor").1 (by decide),
   (C1_createDevice_fails_exactly_on_unrecognised "Motor ").1 (by decide),
   (C1_createDevice_fails_exactly_on_unrecognised "LED").2 (by decide)⟩

/-- C2: each recognised name yields the device of the matching class, whose
`status()` is the documented string. -/
theorem C2_createDevice_variant_and_status :
    (DeviceFactory.createDevice "Motor" = .ok Device.Motor
      ∧ Device.Motor.status = "Motor operational.")
    ∧ (DeviceFactory.createDevice "LED" = .ok Device.LED
      ∧ Device.LED.status = "LED active.")
    ∧ (DeviceFactory.createDevice "RFModule" = .ok Device.RFModule
      ∧ Device.RFModule.status = "RFModule transmitting.") :=
  ⟨⟨rfl, rfl⟩, ⟨rfl, rfl⟩, ⟨rfl, rfl⟩⟩

/-- C3: the default run, started on empty output, writes exactly the five
documented lines in order, each ended by a line terminator, and exits with
status 0. -/
theorem C3_default_run_output :
    lines main.1
      = ["[INFO] Created RFModule",
         "[INFO] Control mode: Safe",
         "[INFO] Applying Safe mode...",
         "[INFO] Powering on RFModule...",
         "[INFO] RFModule transmitting."]
    ∧ main.1
      = "[INFO] Created RFModule\n[INFO] Control mode: Safe\n[INFO] Applying Safe mode...\n[INFO] Powering on RFModule...\n[INFO] RFModule transmitting.\n"
    ∧ terminators main.1 = 5
    ∧ main.2 = 0 := by
  decide

/-! ### The error path of the run -/

theorem log_eq (out msg : String) :
    Logger.log out msg = out ++ ("[INFO] " ++ msg ++ "\n") := by
  simp [Logger.log, endl, String.append_assoc]

theorem c_str_of_no_NUL (s : String) (h : NUL ∉ s.data) : c_str s = s := by
  have h2 : s.data.takeWhile (fun c => c != NUL) = s.data := by
    rw [List.takeWhile_eq_self_iff]
    intro c hc
    have : c ≠ NUL := fun e => h (e ▸ hc)
    simpa using this
  simp [c_str, h2]

theorem c_str_unknown_device_type (type : String) :
    c_str ("Unknown device type: " ++ type) = "Unknown device type: " ++ c_str type := by
  apply String.ext
  simp [c_str, String.data_append, List.takeWhile, NUL]

theorem splitLines_terminated (l : List Char) (h : '\n' ∉ l) :
    splitLines (l ++ ['\n']) = [l] := by
  induction l with
  | nil => simp [splitLines]
  | cons c cs ih =>
    have hc : c ≠ '\n' := fun e => h (by simp [e])
    have hcs : '\n' ∉ cs := fun e => h (by simp [e])
    simp [splitLines, hc, ih hcs]

theorem lines_terminated (s : String) (h : '\n' ∉ s.data) :
    lines (s ++ "\n") = [s] := by
  have : ("\n" : String).data = ['\n'] := by decide
  simp [lines, String.data_append, this, splitLines_terminated s.data h]

/-- C4 as stated fails at two rejected names. For "Motor" followed by a line
terminator the run writes two lines, the second one empty. For a name with an
embedded NUL character the handler reads the message through `what()` and logs
it only up to the NUL. -/
theorem C4_counterexample_terminator_and_NUL :
    ("Motor\n" ∉ ["Motor", "LED", "RFModule"]
      ∧ lines (run "Motor\n" "").1 = ["[INFO] Error: Unknown device type: Motor", ""]
      ∧ lines (run "Motor\n" "").1 ≠ ["[INFO] Error: Unknown device type: " ++ "Motor\n"])
    ∧ ("La\x00ser" ∉ ["Motor", "LED", "RFModule"]
      ∧ lines (run "La\x00ser" "").1 = ["[INFO] Error: Unknown device type: La"]
      ∧ lines (run "La\x00ser" "").1 ≠ ["[INFO] Error: Unknown device type: " ++ "La\x00ser"]) := by
  decide

/-- C4, amended: for every unrecognised device-type name the `try` block is
left at `createDevice` with nothing written, the handler logs once, so the run
appends exactly "[INFO] Error: Unknown device type: ", the name up to its first
NUL character and a line terminator, and the exit status is 0. When the name
contains neither a NUL character nor a line terminator, the output of a run
started on empty output is exactly the one line
"[INFO] Error: Unknown device type: <name>". -/
theorem C4_unrecognised_run (type out : String)
    (h : type ∉ ["Motor", "LED", "RFModule"]) :
    tryBlock type out
      = (.error (.invalid_argument ("Unknown device type: " ++ type)), out)
    ∧ run type out
      = (out ++ ("[INFO] Error: Unknown device type: " ++ c_str type ++ "\n"), 0)
    ∧ (NUL ∉ type.data → '\n' ∉ type.data →
        run type "" = ("[INFO] Error: Unknown device type: " ++ type ++ "\n", 0)
        ∧ lines (run type "").1 = ["[INFO] Error: Unknown device type: " ++ type]) := by
  have htry : tryBlock type out
      = (.error (.invalid_argument ("Unknown device type: " ++ type)), out) := by
    simp [tryBlock, createDevice_of_not_mem type h]
  have hrun : ∀ o : String, run type o
      = (o ++ ("[INFO] Error: Unknown device type: " ++ c_str type ++ "\n"), 0) := by
    intro o
    have hl : "Error: " ++ ("Unknown device type: " ++ c_str type)
        = "Error: Unknown device type: " ++ c_str type := by
      rw [← String.append_assoc]; rfl
    have hi : "[INFO] " ++ ("Error: Unknown device type: " ++ c_str type)
        = "[INFO] Error: Unknown device type: " ++ c_str type := by
      rw [← String.append_assoc]; rfl
    simp only [run, tryBlock, createDevice_of_not_mem type h, StdException.what,
      c_str_unknown_device_type, log_eq, hl]
    rw [← hi, String.append_assoc]
  refine ⟨htry, hrun out, ?_⟩
  intro hnul hlf
  have hempty : ∀ t : String, "" ++ t = t := by
    intro t; apply String.ext; simp [String.data_append]
  have hout : run type "" = ("[INFO] Error: Unknown device type: " ++ type ++ "\n", 0) := by
    rw [hrun "", c_str_of_no_NUL type hnul, hempty]
  refine ⟨hout, ?_⟩
  rw [hout]
  apply lines_terminated
  intro hmem
  rw [String.data_append, List.mem_append] at hmem
  rcases hmem with hmem | hmem
  · revert hmem; decide
  · exact hlf hmem

/-- C4 at the name "Laser": the run writes the single line
"[INFO] Error: Unknown device type: Laser" and exits with status 0. -/
theorem C4_unrecognised_run_witness :
    tryBlock "Laser" ""
      = (.error (.invalid_argument ("Unknown device type: " ++ "Laser")), "")
    ∧ run "Laser" ""
      = ("" ++ ("[INFO] Error: Unknown device type: " ++ c_str "Laser" ++ "\n"), 0)
    ∧ run "Laser" "" = ("[INFO] Error: Unknown device type: " ++ "Laser" ++ "\n", 0)
    ∧ lines (run "Laser" "").1 = ["[INFO] Error: Unknown device type: " ++ "Laser"] :=
  have h := C4_unrecognised_run "Laser" "" (by decide)
  ⟨h.1, h.2.1, h.2.2 (by decide) (by decide)⟩

/-! ### Control modes and devices -/

theorem empty_append (t : String) : "" ++ t = t := by
  apply String.ext; simp [String.data_append]

/-- C5: for both modes and every device, `applyMode` logs the mode-application
message and then calls the device's `powerOn`; what it appends does not depend
on the output written before and consists of exactly two lines, "[INFO]
Applying <ModeName> mode..." followed by "[INFO] Powering on <TypeName>...". The
powerOn line occurs once, and no line written by any device's `powerOff`
occurs. -/
theorem C5_applyMode_logs_then_powers_on (m : ControlMode) (d : Device) (out : String) :
    m.applyMode d out = d.powerOn (Logger.log out ("Applying " ++ m.name ++ " mode..."))
    ∧ m.applyMode d out = out ++ m.applyMode d ""
    ∧ lines (m.applyMode d "")
      = ["[INFO] Applying " ++ m.name ++ " mode...",
         "[INFO] Powering on " ++ d.className ++ "..."]
    ∧ lines (d.powerOn "") = ["[INFO] Powering on " ++ d.className ++ "..."]
    ∧ (lines (m.applyMode d "")).count ("[INFO] Powering on " ++ d.className ++ "...") = 1
    ∧ ∀ d2 : Device, ∀ l ∈ lines (d2.powerOff ""), l ∉ lines (m.applyMode d "") := by
  refine ⟨?_, ?_, ?_, ?_, ?_, ?_⟩
  · cases m <;> rfl
  · cases m <;> cases d <;>
      simp only [ControlMode.applyMode, Device.powerOn, log_eq, empty_append,
        String.append_assoc]
  · cases m <;> cases d <;> decide
  · cases d <;> decide
  · cases m <;> cases d <;> decide
  · intro d2
    cases m <;> cases d <;> cases d2 <;> decide

/-- C6: for every device class T, `powerOn` appends exactly the one line
"[INFO] Powering on T..." and `powerOff` exactly the one line
"[INFO] Powering off T...", where T is the name of the class, which is also
the name the factory maps to it. -/
theorem C6_power_messages (d : Device) (out : String) :
    d.powerOn out = out ++ ("[INFO] Powering on " ++ d.className ++ "..." ++ "\n")
    ∧ d.powerOff out = out ++ ("[INFO] Powering off " ++ d.className ++ "..." ++ "\n")
    ∧ lines (d.powerOn "") = ["[INFO] Powering on " ++ d.className ++ "..."]
    ∧ lines (d.powerOff "") = ["[INFO] Powering off " ++ d.className ++ "..."]
    ∧ terminators (d.powerOn "") = 1
    ∧ terminators (d.powerOff "") = 1
    ∧ DeviceFactory.createDevice d.className = .ok d := by
  have hon : ∀ t : String, "[INFO] " ++ ("Powering on " ++ t ++ "...")
      = "[INFO] Powering on " ++ t ++ "..." := by
    intro t; rw [← String.append_assoc, ← String.append_assoc]; rfl
  have hoff : ∀ t : String, "[INFO] " ++ ("Powering off " ++ t ++ "...")
      = "[INFO] Powering off " ++ t ++ "..." := by
    intro t; rw [← String.append_assoc, ← String.append_assoc]; rfl
  refine ⟨?_, ?_, ?_, ?_, ?_, ?_, ?_⟩
  · rw [← hon]; cases d <;> exact log_eq _ _
  · rw [← hoff]; cases d <;> exact log_eq _ _
  · cases d <;> decide
  · cases d <;> decide
  · cases d <;> decide
  · cases d <;> decide
  · cases d <;> rfl

theorem device_callAll_returns (d : Device) (cs : List DeviceCall) (out : String) :
    ∀ r ∈ (d.callAll cs out).1, r = none ∨ r = some d.status := by
  induction cs generalizing out with
  | nil => intro r hr; simp [Device.callAll] at hr
  | cons c cs ih =>
    intro r hr
    simp only [Device.callAll, List.mem_cons] at hr
    rcases hr with hr | hr
    · subst hr
      cases c
      · exact Or.inl rfl
      · exact Or.inl rfl
      · exact Or.inr rfl
    · exact ih _ r hr

/-- C7: in any finite sequence of `powerOn`, `powerOff` and `status` calls on a
device, started on any output, every string returned is the fixed status string
of the device's class, and a `status()` call made after the sequence returns
that same string: "Motor operational.", "LED active." or
"RFModule transmitting.". The result is the same before and after `powerOn`. -/
theorem C7_status_independent_of_history (d : Device) (cs : List DeviceCall) (out : String) :
    (∀ s, some s ∈ (d.callAll cs out).1 → s = d.status)
    ∧ (d.call .status (d.callAll cs out).2).1 = some d.status
    ∧ (d.callAll [.status, .powerOn, .status, .powerOff, .status] out).1
      = [some d.status, none, some d.status, none, some d.status]
    ∧ Device.Motor.status = "Motor operational."
    ∧ Device.LED.status = "LED active."
    ∧ Device.RFModule.status = "RFModule transmitting." := by
  refine ⟨?_, rfl, rfl, rfl, rfl, rfl⟩
  intro s hs
  rcases device_callAll_returns d cs out (some s) hs with h | h
  · cases h
  · exact Option.some.inj h

/-! ### Logger -/

theorem foldl_log (msgs : List String) (out : String) :
    msgs.foldl Logger.log out
      = out ++ String.join (msgs.map (fun msg => "[INFO] " ++ msg ++ "\n")) := by
  induction msgs generalizing out with
  | nil => apply String.ext; simp [String.data_append]
  | cons msg rest ih =>
    rw [List.foldl_cons, ih, log_eq]
    apply String.ext
    simp [String.data_append]

/-- C8: `log` appends to the output written so far exactly "[INFO] ", the
message and a line terminator, leaving what was written before in place; after
any sequence of `log` calls the output is the starting output followed by the
entries in call order. -/
theorem C8_log_appends_entry (out msg : String) (msgs : List String) :
    Logger.log out msg = out ++ ("[INFO] " ++ msg ++ "\n")
    ∧ (Logger.log out msg).data.take out.length = out.data
    ∧ (Logger.log out msg).data.drop out.length = ("[INFO] " ++ msg ++ "\n").data
    ∧ msgs.foldl Logger.log out
      = out ++ String.join (msgs.map (fun m => "[INFO] " ++ m ++ "\n")) := by
  refine ⟨log_eq out msg, ?_, ?_, foldl_log msgs out⟩
  · rw [log_eq, String.data_append]
    exact List.take_left' rfl
  · rw [log_eq, String.data_append]
    exact List.drop_left' rfl

theorem terminators_log (msg : String) :
    terminators (Logger.log "" msg) = terminators msg + 1 := by
  have h1 : ("[INFO] " : String).data.count '\n' = 0 := by decide
  have h2 : ("\n" : String).data.count '\n' = 1 := by decide
  rw [log_eq, empty_append]
  simp only [terminators, String.data_append, List.count_append, h1, h2]
  omega

theorem terminators_eq_zero_iff (s : String) : terminators s = 0 ↔ '\n' ∉ s.data := by
  simp [terminators, List.count_eq_zero]

theorem count_takeWhile_le (p : Char → Bool) (c : Char) (l : List Char) :
    (l.takeWhile p).count c ≤ l.count c :=
  (List.takeWhile_sublist p).count_le c

/-- C9 as stated fails for a message that contains a line terminator: logging
"a", a terminator, "b" writes two terminators, and so does the handler's
message for the rejected name "Laser" followed by a terminator. -/
theorem C9_counterexample_message_with_terminator :
    terminators (Logger.log "" "a\nb") = 2
    ∧ lines (Logger.log "" "a\nb") = ["[INFO] a", "b"]
    ∧ DeviceFactory.createDevice "Laser\n"
      = .error (.invalid_argument ("Unknown device type: " ++ "Laser\n"))
    ∧ terminators (Logger.log ""
        ("Error: " ++ (StdException.invalid_argument ("Unknown device type: " ++ "Laser\n")).what))
      = 2 := by
  refine ⟨by decide, by decide, rfl, by decide⟩

/-- C9, amended: the text written by a call of `log` does not depend on the
output written before, starts with "[INFO] ", ends with a line terminator and
contains one line terminator more than the message; so it is exactly one line
precisely when the message contains no line terminator. The handler's message
"Error: " followed by `what()` for a rejected device-type name contains none
whenever the name contains none. -/
theorem C9_log_one_line_iff_no_terminator (out msg type : String) :
    Logger.log out msg = out ++ Logger.log "" msg
    ∧ (∃ rest, Logger.log "" msg = "[INFO] " ++ rest)
    ∧ (Logger.log "" msg).data.getLast? = some '\n'
    ∧ terminators (Logger.log "" msg) = terminators msg + 1
    ∧ (terminators (Logger.log "" msg) = 1 ↔ '\n' ∉ msg.data)
    ∧ ('\n' ∉ msg.data → lines (Logger.log "" msg) = ["[INFO] " ++ msg])
    ∧ ('\n' ∉ type.data →
        terminators (Logger.log ""
          ("Error: " ++ (StdException.invalid_argument ("Unknown device type: " ++ type)).what))
        = 1) := by
  have hone : terminators (Logger.log "" msg) = 1 ↔ '\n' ∉ msg.data := by
    rw [terminators_log, ← terminators_eq_zero_iff]; omega
  have hinfo : '\n' ∉ ("[INFO] " : String).data := by decide
  refine ⟨?_, ⟨msg ++ "\n", ?_⟩, ?_, terminators_log msg, hone, ?_, ?_⟩
  · rw [log_eq, log_eq, empty_append]
  · rw [log_eq, empty_append, String.append_assoc]
  · have hn : ("\n" : String).data = ['\n'] := rfl
    rw [log_eq, empty_append, String.data_append, hn, List.getLast?_concat]
  · intro h
    rw [log_eq, empty_append]
    apply lines_terminated
    rw [String.data_append, List.mem_append]
    rintro (h2 | h2)
    · exact hinfo h2
    · exact h h2
  · intro h
    have h0 : terminators type = 0 := (terminators_eq_zero_iff type).2 h
    have hle : terminators (c_str type) ≤ terminators type :=
      count_takeWhile_le _ _ _
    have hE : ("Error: " : String).data.count '\n' = 0 := by decide
    have hU : ("Unknown device type: " : String).data.count '\n' = 0 := by decide
    rw [terminators_log]
    simp only [StdException.what, c_str_unknown_device_type]
    simp only [terminators, String.data_append, List.count_append, hE, hU] at *
    omega

/-- C9 at the message "Created RFModule" and the rejected name "Laser": one
line each. -/
theorem C9_log_one_line_iff_no_terminator_witness :
    lines (Logger.log "" "Created RFModule") = ["[INFO] " ++ "Created RFModule"]
    ∧ terminators (Logger.log ""
        ("Error: " ++ (StdException.invalid_argument ("Unknown device type: " ++ "Laser")).what))
      = 1 :=
  have h := C9_log_one_line_iff_no_terminator "" "Created RFModule" "Laser"
  ⟨h.2.2.2.2.2.1 (by decide), h.2.2.2.2.2.2 (by decide)⟩

/-! ### Mode names -/

theorem mode_callAll_returns (m : ControlMode) (cs : List ModeCall) (out : String) :
    ∀ r ∈ (m.callAll cs out).1, r = none ∨ r = some m.name := by
  induction cs generalizing out with
  | nil => intro r hr; simp [ControlMode.callAll] at hr
  | cons c cs ih =>
    intro r hr
    simp only [ControlMode.callAll, List.mem_cons] at hr
    rcases hr with hr | hr
    · subst hr
      cases c
      · exact Or.inl rfl
      · exact Or.inr rfl
    · exact ih _ r hr

/-- C10: `name()` returns "Safe" for `SafeMode` and "Performance" for
`PerformanceMode`; in any finite sequence of `name` and `applyMode` calls on a
mode, on any devices and any starting output, every string returned is that
literal, and a `name()` call made after the sequence returns it again. -/
theorem C10_name_fixed_literal (m : ControlMode) (cs : List ModeCall) (d : Device)
    (out : String) :
    ControlMode.SafeMode.name = "Safe"
    ∧ ControlMode.PerformanceMode.name = "Performance"
    ∧ (∀ s, some s ∈ (m.callAll cs out).1 → s = m.name)
    ∧ (m.call .name (m.callAll cs out).2).1 = some m.name
    ∧ (m.callAll [.name, .name, .applyMode d, .name] out).1
      = [some m.name, some m.name, none, some m.name] := by
  refine ⟨rfl, rfl, ?_, rfl, rfl⟩
  intro s hs
  rcases mode_callAll_returns m cs out (some s) hs with h | h
  · cases h
  · exact Option.some.inj h

/-! ### Calls that write nothing -/

theorem device_callAll_filter_status (d : Device) (cs : List DeviceCall) (out : String) :
    (d.callAll cs out).2 = (d.callAll (cs.filter (fun c => c != .status)) out).2 := by
  induction cs generalizing out with
  | nil => rfl
  | cons c cs ih =>
    cases c
    · simpa [Device.callAll, Device.call] using ih _
    · simpa [Device.callAll, Device.call] using ih _
    · simpa [Device.callAll, Device.call] using ih _

theorem mode_callAll_filter_name (m : ControlMode) (cs : List ModeCall) (out : String) :
    (m.callAll cs out).2 = (m.callAll (cs.filter (fun c => c != .name)) out).2 := by
  induction cs generalizing out with
  | nil => rfl
  | cons c cs ih =>
    cases c
    · simpa [ControlMode.callAll, ControlMode.call] using ih _
    · simpa [ControlMode.callAll, ControlMode.call] using ih _

theorem device_callAll_replicate_status (d : Device) (n : Nat) (out : String) :
    (d.callAll (List.replicate n .status) out).2 = out := by
  induction n with
  | zero => rfl
  | succ n ih => simpa [List.replicate, Device.callAll, Device.call] using ih

/-- C11: `createDevice`, `status()` and `name()` write nothing. A call of each
leaves the output written so far unchanged, for every type name, device and
mode; removing the `status` (or `name`) calls from any sequence of calls does
not change the output of the sequence. In the `try` block of the run, a failing
`createDevice` leaves the output as it was, and after a successful one the
output is made of the writes of the four logging steps only. -/
theorem C11_no_output_side_effect (type : String) (d : Device) (m : ControlMode)
    (cs : List DeviceCall) (ms : List ModeCall) (n : Nat) (out : String) :
    (DeviceFactory.call type out).2 = out
    ∧ (d.call .status out).2 = out
    ∧ (m.call .name out).2 = out
    ∧ (d.callAll cs out).2 = (d.callAll (cs.filter (fun c => c != .status)) out).2
    ∧ (m.callAll ms out).2 = (m.callAll (ms.filter (fun c => c != .name)) out).2
    ∧ (d.callAll (List.replicate n .status) out).2 = out
    ∧ (∀ e, (DeviceFactory.call type out).1 = .error e → tryBlock type out = (.error e, out))
    ∧ (∀ dev, (DeviceFactory.call type out).1 = .ok dev →
        (tryBlock type out).2
          = Logger.log
              (ControlMode.SafeMode.applyMode dev
                (Logger.log (Logger.log out "Created RFModule") "Control mode: Safe"))
              dev.status) := by
  refine ⟨rfl, rfl, rfl, device_callAll_filter_status d cs out,
    mode_callAll_filter_name m ms out, device_callAll_replicate_status d n out, ?_, ?_⟩
  · intro e he
    have he2 : DeviceFactory.createDevice type = .error e := he
    simp [tryBlock, he2]
  · intro dev hd
    have hd2 : DeviceFactory.createDevice type = .ok dev := hd
    simp only [tryBlock, hd2]
    rfl

/-- C11 on both paths of the factory: the rejected name "Laser" leaves the
`try` block with empty output, and the name "RFModule" yields the output of
the four logging steps. -/
theorem C11_no_output_side_effect_witness :
    tryBlock "Laser" ""
      = (.error (.invalid_argument ("Unknown device type: " ++ "Laser")), "")
    ∧ (tryBlock "RFModule" "").2
      = Logger.log
          (ControlMode.SafeMode.applyMode Device.RFModule
            (Logger.log (Logger.log "" "Created RFModule") "Control mode: Safe"))
          Device.RFModule.status :=
  ⟨(C11_no_output_side_effect "Laser" Device.Motor ControlMode.SafeMode [] [] 0 "").2.2.2.2.2.2.1
      _ rfl,
   (C11_no_output_side_effect "RFModule" Device.Motor ControlMode.SafeMode [] [] 0 "").2.2.2.2.2.2.2
      _ rfl⟩

/-! ### The two modes compared -/

theorem appended_append (out t : String) : appended out (out ++ t) = t := by
  apply String.ext
  simp only [appended, String.data_append]
  exact List.drop_left' rfl

theorem powerOn_eq (d : Device) (out : String) : d.powerOn out = out ++ d.powerOn "" := by
  cases d <;> simp only [Device.powerOn, log_eq, empty_append]

theorem powerOff_eq (d : Device) (out : String) : d.powerOff out = out ++ d.powerOff "" := by
  cases d <;> simp only [Device.powerOff, log_eq, empty_append]

theorem applyMode_eq (m : ControlMode) (d : Device) (out : String) :
    m.applyMode d out = out ++ m.applyMode d "" := by
  cases m <;> cases d <;>
    simp only [ControlMode.applyMode, Device.powerOn, log_eq, empty_append,
      String.append_assoc]

/-- C12: for every device and every starting output, the texts appended by
`SafeMode.applyMode` and by `PerformanceMode.applyMode` have the same number of
entries and agree on every entry except the first, which is the mode's own
"Applying <ModeName> mode..." message; each mode makes the same `powerOn` call on
the device after its message, and the two modes have different names. -/
theorem C12_modes_same_device_operation (d : Device) (out : String) :
    ControlMode.SafeMode.applyMode d out
      = out ++ appended out (ControlMode.SafeMode.applyMode d out)
    ∧ ControlMode.PerformanceMode.applyMode d out
      = out ++ appended out (ControlMode.PerformanceMode.applyMode d out)
    ∧ (lines (appended out (ControlMode.SafeMode.applyMode d out))).length
      = (lines (appended out (ControlMode.PerformanceMode.applyMode d out))).length
    ∧ (lines (appended out (ControlMode.SafeMode.applyMode d out))).tail
      = (lines (appended out (ControlMode.PerformanceMode.applyMode d out))).tail
    ∧ (lines (appended out (ControlMode.SafeMode.applyMode d out))).head?
      = some "[INFO] Applying Safe mode..."
    ∧ (lines (appended out (ControlMode.PerformanceMode.applyMode d out))).head?
      = some "[INFO] Applying Performance mode..."
    ∧ ControlMode.SafeMode.applyMode d out
      = d.powerOn (Logger.log out "Applying Safe mode...")
    ∧ ControlMode.PerformanceMode.applyMode d out
      = d.powerOn (Logger.log out "Applying Performance mode...")
    ∧ ControlMode.SafeMode.name ≠ ControlMode.PerformanceMode.name := by
  have hs : appended out (ControlMode.SafeMode.applyMode d out)
      = ControlMode.SafeMode.applyMode d "" := by
    rw [applyMode_eq, appended_append]
  have hp : appended out (ControlMode.PerformanceMode.applyMode d out)
      = ControlMode.PerformanceMode.applyMode d "" := by
    rw [applyMode_eq, appended_append]
  rw [hs, hp]
  refine ⟨applyMode_eq _ d out, applyMode_eq _ d out, ?_, ?_, ?_, ?_, rfl, rfl, by decide⟩
  · cases d <;> decide
  · cases d <;> decide
  · cases d <;> decide
  · cases d <;> decide

/-! ### The factory's result identifies the name -/

theorem createDevice_ok_className (type : String) (d : Device)
    (h : DeviceFactory.createDevice type = .ok d) : type = d.className := by
  unfold DeviceFactory.createDevice at h
  split at h
  · cases h; assumption
  · split at h
    · cases h; assumption
    · split at h
      · cases h; assumption
      · cases h

theorem append_left_cancel (out x y : String) (h : out ++ x = out ++ y) : x = y := by
  apply String.ext
  have h2 := congrArg String.data h
  simp only [String.data_append] at h2
  exact List.append_cancel_left h2

theorem status_injective : Function.Injective Device.status := by
  intro a b h
  cases a <;> cases b <;> first | rfl | (revert h; decide)

theorem powerOn_injective (out : String) :
    Function.Injective (fun d : Device => d.powerOn out) := by
  intro a b h
  have h2 : a.powerOn "" = b.powerOn "" := by
    apply append_left_cancel out
    rw [← powerOn_eq, ← powerOn_eq]; exact h
  cases a <;> cases b <;> first | rfl | (revert h2; decide)

theorem powerOff_injective (out : String) :
    Function.Injective (fun d : Device => d.powerOff out) := by
  intro a b h
  have h2 : a.powerOff "" = b.powerOff "" := by
    apply append_left_cancel out
    rw [← powerOff_eq, ← powerOff_eq]; exact h
  cases a <;> cases b <;> first | rfl | (revert h2; decide)

/-- C13: if `createDevice` maps the names `a` and `b` to devices with equal
`status()` strings, or whose `powerOn` (or `powerOff`) calls write the same
text on the same starting output, then `a = b`; the status strings, powerOn
messages and powerOff messages of the three classes are pairwise distinct. -/
theorem C13_factory_result_identifies_name (a b : String) (da db : Device) (out : String)
    (ha : DeviceFactory.createDevice a = .ok da)
    (hb : DeviceFactory.createDevice b = .ok db) :
    (da.status = db.status → a = b)
    ∧ (da.powerOn out = db.powerOn out → a = b)
    ∧ (da.powerOff out = db.powerOff out → a = b)
    ∧ Function.Injective Device.status
    ∧ Function.Injective (fun d : Device => d.powerOn out)
    ∧ Function.Injective (fun d : Device => d.powerOff out)
    ∧ ([Device.Motor, Device.LED, Device.RFModule].map Device.status).Nodup
    ∧ ([Device.Motor, Device.LED, Device.RFModule].map (fun d => d.powerOn "")).Nodup
    ∧ ([Device.Motor, Device.LED, Device.RFModule].map (fun d => d.powerOff "")).Nodup := by
  have hab : da = db → a = b := by
    intro hd
    rw [createDevice_ok_className a da ha, createDevice_ok_className b db hb, hd]
  refine ⟨fun h => hab (status_injective h), fun h => hab (powerOn_injective out h),
    fun h => hab (powerOff_injective out h), status_injective, powerOn_injective out,
    powerOff_injective out, by decide, by decide, by decide⟩

/-- C13 at the names "LED" and "LED", and at "Motor" and "RFModule", whose
devices differ in status. -/
theorem C13_factory_result_identifies_name_witness :
    (Device.LED.status = Device.LED.status → "LED" = "LED")
    ∧ (Device.Motor.status = Device.RFModule.status → "Motor" = "RFModule")
    ∧ Device.Motor.status ≠ Device.RFModule.status :=
  ⟨(C13_factory_result_identifies_name "LED" "LED" Device.LED Device.LED "" rfl rfl).1,
   (C13_factory_result_identifies_name "Motor" "RFModule" Device.Motor Device.RFModule ""
      rfl rfl).1,
   by decide⟩

end HAL
